import Mathlib

/-!
Verification of the cheese_erp reservation and capacity engine.

This file shallowly embeds the data model and the operations of the
repository (doctypes, controllers, schedulers) as executable Lean
definitions and proves or refutes the specification claims about them.

Modelling conventions:
* datetimes are natural numbers counted in hours (the code only ever adds
  whole hours and compares datetimes);
* currency values are integers (every concrete input used below makes the
  single percentage division in the pricing helpers exact, where the source
  uses real division);
* the frappe document store is a `State` record of lists; `frappe.get_doc`
  is a list lookup that errors when the name is missing, `save`/`insert`
  run the doctype validate hooks and then persist;
* `frappe.throw` is `Except.error`; a controller that catches
  `ValidationError` and returns an error response is a function returning
  `Except.error` with the state unchanged (nothing was committed);
* `frappe.db.commit` / `frappe.db.rollback` in the route-booking saga are
  modelled by threading the last committed state next to the current one.
-/

inductive TicketStatus where
  | PENDING
  | CONFIRMED
  | CHECKED_IN
  | COMPLETED
  | EXPIRED
  | REJECTED
  | CANCELLED
  | NO_SHOW
deriving DecidableEq

inductive SlotStatus where
  | OPEN
  | CLOSED
  | BLOCKED
deriving DecidableEq

inductive RouteBookingStatus where
  | PENDING
  | PARTIALLY_CONFIRMED
  | CONFIRMED
  | CANCELLED
deriving DecidableEq

inductive DepositStatus where
  | PENDING
  | PAID
  | OVERDUE
  | ADJUSTED
  | REFUNDED
deriving DecidableEq

/-- Cheese Experience Slot document (date and time are merged into the one
`slot_time` datetime the code ever builds from them). -/
structure Slot where
  id : Nat
  max_capacity : Int
  reserved_capacity : Int
  slot_status : SlotStatus
  slot_time : Nat
deriving DecidableEq

/-- Cheese Ticket document (the reservation).  The JSON snapshot fields
`policy_snapshot` / `price_snapshot` are write-only blobs never read back by
the engine and are not modelled. -/
structure Ticket where
  id : Nat
  contact : Nat
  company : Nat
  experience : Nat
  slot : Nat
  route : Option Nat
  party_size : Int
  status : TicketStatus
  expires_at : Option Nat
  deposit_required : Bool
  deposit_amount : Int
deriving DecidableEq

/-- Cheese Experience document (the fields the engine reads). -/
structure Experience where
  id : Nat
  company : Nat
  individual_price : Int
  route_price : Int
  min_acts_for_route_price : Int
  deposit_required : Bool
  deposit_type : String
  deposit_value : Int
  deposit_ttl_hours : Nat
deriving DecidableEq

/-- Cheese Booking Policy document; a 0 window is falsy in the source and
disables the check. -/
structure BookingPolicy where
  experience : Nat
  min_hours_before_booking : Int
  modify_until_hours_before : Int
  cancel_until_hours_before : Int
deriving DecidableEq

/-- Cheese Route Experience child row. -/
structure RouteExperienceRow where
  experience : Nat
  sequence : Nat
deriving DecidableEq

/-- Cheese Route document. -/
structure Route where
  id : Nat
  status : String
  price_mode : String
  price : Int
  experiences : List RouteExperienceRow
  deposit_required : Bool
  deposit_type : String
  deposit_value : Int
  deposit_ttl_hours : Nat
deriving DecidableEq

/-- Cheese Route Booking Ticket child row. -/
structure RouteBookingTicketRow where
  ticket : Nat
  experience : Nat
  slot : Nat
  party_size : Int
  status : TicketStatus
deriving DecidableEq

/-- Cheese Route Booking document. -/
structure RouteBooking where
  id : Nat
  contact : Nat
  route : Nat
  status : RouteBookingStatus
  total_price : Int
  deposit_required : Bool
  deposit_amount : Int
  expires_at : Option Nat
  tickets : List RouteBookingTicketRow
deriving DecidableEq

/-- Cheese Deposit document.  `entity_type` is the DynamicLink type tag
exactly as the code writes it ("Cheese Ticket", "Ticket", "Route Booking"):
keeping it a string is essential because different source files disagree on
the tag. -/
structure Deposit where
  id : Nat
  entity_type : String
  entity_id : Nat
  amount_required : Int
  amount_paid : Int
  due_at : Option Nat
  paid_at : Option Nat
  status : DepositStatus
  verification_method : String
deriving DecidableEq

/-- The document store. `attendances` holds the ticket ids that have a
Cheese Attendance row (all the no-show sweep reads of it); `next_id` feeds
the autoname counter for inserted documents. -/
structure State where
  contacts : List Nat
  experiences : List Experience
  policies : List BookingPolicy
  routes : List Route
  slots : List Slot
  tickets : List Ticket
  route_bookings : List RouteBooking
  deposits : List Deposit
  attendances : List Nat
  next_id : Nat
deriving DecidableEq

deriving instance DecidableEq for Except

def findSlot (st : State) (slot_id : Nat) : Option Slot :=
  st.slots.find? (fun s => s.id == slot_id)

def findTicket (st : State) (ticket_id : Nat) : Option Ticket :=
  st.tickets.find? (fun t => t.id == ticket_id)

def findExperience (st : State) (experience_id : Nat) : Option Experience :=
  st.experiences.find? (fun e => e.id == experience_id)

def findRoute (st : State) (route_id : Nat) : Option Route :=
  st.routes.find? (fun r => r.id == route_id)

def findRouteBooking (st : State) (rb_id : Nat) : Option RouteBooking :=
  st.route_bookings.find? (fun rb => rb.id == rb_id)

def findDeposit (st : State) (deposit_id : Nat) : Option Deposit :=
  st.deposits.find? (fun d => d.id == deposit_id)

def setSlot (st : State) (s : Slot) : State :=
  { st with slots := st.slots.map (fun x => if x.id == s.id then s else x) }

def setTicket (st : State) (t : Ticket) : State :=
  { st with tickets := st.tickets.map (fun x => if x.id == t.id then t else x) }

def setRouteBooking (st : State) (rb : RouteBooking) : State :=
  { st with route_bookings := st.route_bookings.map (fun x => if x.id == rb.id then rb else x) }

def setDeposit (st : State) (d : Deposit) : State :=
  { st with deposits := st.deposits.map (fun x => if x.id == d.id then d else x) }

/-- cheese/utils/capacity.py `calculate_reserved_capacity`: the sum of
`party_size` over the tickets of the slot whose status is PENDING (and only
PENDING — the SQL filter is `status == "PENDING"`). -/
def calculate_reserved_capacity (tickets : List Ticket) (slot_name : Nat) : Int :=
  ((tickets.filter
      (fun t => t.slot == slot_name && decide (t.status = TicketStatus.PENDING))).map
    (fun t => t.party_size)).sum

/-- CheeseExperienceSlot.get_available_capacity: max minus the stored
reserved amount. -/
def Slot.get_available_capacity (s : Slot) : Int :=
  s.max_capacity - s.reserved_capacity

/-- CheeseExperienceSlot.calculate_reserved_capacity: recompute the stored
`reserved_capacity` field from the PENDING tickets of the slot. -/
def Slot.recompute_reserved_capacity (s : Slot) (tickets : List Ticket) : Slot :=
  { s with reserved_capacity := calculate_reserved_capacity tickets s.id }

/-- CheeseExperienceSlot.update_slot_status: a non-BLOCKED slot becomes
CLOSED when available capacity is at most 0 and OPEN otherwise; BLOCKED is
never touched. -/
def Slot.update_slot_status (s : Slot) : Slot :=
  if s.slot_status ≠ SlotStatus.BLOCKED then
    if s.max_capacity - s.reserved_capacity ≤ 0 then
      { s with slot_status := SlotStatus.CLOSED }
    else
      { s with slot_status := SlotStatus.OPEN }
  else s

/-- cheese/utils/capacity.py `update_slot_capacity`: load the slot,
recompute its reserved capacity, update its status, save. -/
def update_slot_capacity (st : State) (slot_name : Nat) : Except String State :=
  match findSlot st slot_name with
  | none => Except.error ("Slot not found")
  | some slot =>
    let slot1 := slot.recompute_reserved_capacity st.tickets
    let slot2 := slot1.update_slot_status
    Except.ok (setSlot st slot2)

/-- CheeseTicket.VALID_TRANSITIONS, exactly as written in the doctype:
note that CHECKED_IN only lists COMPLETED. -/
def VALID_TRANSITIONS : TicketStatus → List TicketStatus
  | TicketStatus.PENDING => [TicketStatus.CONFIRMED, TicketStatus.EXPIRED, TicketStatus.REJECTED]
  | TicketStatus.CONFIRMED => [TicketStatus.CHECKED_IN, TicketStatus.CANCELLED, TicketStatus.NO_SHOW]
  | TicketStatus.CHECKED_IN => [TicketStatus.COMPLETED]
  | _ => []

/-- CheeseTicket.validate_status_transition: compare the new status against
the stored one and throw when the pair is not in VALID_TRANSITIONS. -/
def validate_status_transition (previous_status new_status : TicketStatus) :
    Except String Unit :=
  if new_status ≠ previous_status then
    if new_status ∈ VALID_TRANSITIONS previous_status then Except.ok ()
    else Except.error ("Invalid status transition")
  else Except.ok ()

/-- CheeseTicket.validate_capacity: throw when the party size exceeds the
slot's stored available capacity.  It runs on every save of a ticket, not
only at creation. -/
def validate_capacity (st : State) (t : Ticket) : Except String State :=
  match findSlot st t.slot with
  | none => Except.error ("Slot not found")
  | some slot =>
    if t.party_size > slot.get_available_capacity then
      Except.error ("Party size exceeds available capacity")
    else Except.ok st

/-- CheeseTicket.set_expires_at: a PENDING ticket gets
`now + deposit_ttl_hours` (default 24) as its expiration. -/
def set_expires_at (st : State) (t : Ticket) (now : Nat) : Except String Ticket :=
  if t.status = TicketStatus.PENDING then
    match findExperience st t.experience with
    | none => Except.error ("Experience not found")
    | some e =>
      let ttl_hours : Nat := if e.deposit_ttl_hours ≠ 0 then e.deposit_ttl_hours else 24
      Except.ok { t with expires_at := some (now + ttl_hours) }
  else Except.ok t

/-- Models `save()` of an existing Cheese Ticket document: the validate hook
runs `validate_status_transition` against the stored status and
`validate_capacity` against the stored slot, then — when the status changed
— `update_capacity` recomputes the slot from the still-stored ticket rows
(the new status is not yet persisted at that point), and finally the
document itself is persisted. -/
def ticket_save (st : State) (t : Ticket) : Except String State :=
  match findTicket st t.id with
  | none => Except.error ("Ticket not found")
  | some prev =>
    match validate_status_transition prev.status t.status with
    | Except.error e => Except.error e
    | Except.ok _ =>
      match validate_capacity st t with
      | Except.error e => Except.error e
      | Except.ok _ =>
        match (if t.status ≠ prev.status then update_slot_capacity st t.slot
               else Except.ok st) with
        | Except.error e => Except.error e
        | Except.ok st1 => Except.ok (setTicket st1 t)

/-- Models `insert()` of a new Cheese Ticket: validate_capacity, then
set_expires_at, then the row is appended (snapshot creation writes fields
the engine never reads back and is omitted). -/
def ticket_insert (st : State) (t : Ticket) (now : Nat) : Except String State :=
  match validate_capacity st t with
  | Except.error e => Except.error e
  | Except.ok _ =>
    match set_expires_at st t now with
    | Except.error e => Except.error e
    | Except.ok t1 => Except.ok { st with tickets := st.tickets ++ [t1] }

/-- CheeseTicket.cancel: the doctype method refuses any status other than
CONFIRMED, then saves the CANCELLED status. -/
def CheeseTicket.cancel (st : State) (t : Ticket) : Except String State :=
  if t.status ≠ TicketStatus.CONFIRMED then
    Except.error ("Only CONFIRMED tickets can be cancelled")
  else ticket_save st { t with status := TicketStatus.CANCELLED }

/-- cheese/utils/validation.py `validate_booking_policy` with the action
encoded as an inductive (the source strings "booking" / "modify" /
"cancel"). -/
inductive PolicyAction where
  | booking
  | modify
  | cancel
deriving DecidableEq

def validate_booking_policy (st : State) (experience_id : Nat) (slot_datetime : Nat)
    (now : Nat) (action : PolicyAction) : Except String Unit :=
  match st.policies.find? (fun p => p.experience == experience_id) with
  | none => Except.ok ()
  | some policy =>
    let hours_until_slot : Int := (slot_datetime : Int) - (now : Int)
    match action with
    | PolicyAction.booking =>
      if policy.min_hours_before_booking ≠ 0 ∧
          hours_until_slot < policy.min_hours_before_booking then
        Except.error ("Booking lead time policy violation")
      else Except.ok ()
    | PolicyAction.modify =>
      if policy.modify_until_hours_before ≠ 0 ∧
          hours_until_slot < policy.modify_until_hours_before then
        Except.error ("Modification window policy violation")
      else Except.ok ()
    | PolicyAction.cancel =>
      if policy.cancel_until_hours_before ≠ 0 ∧
          hours_until_slot < policy.cancel_until_hours_before then
        Except.error ("Cancellation window policy violation")
      else Except.ok ()

/-- cheese/utils/pricing.py `calculate_ticket_price` as the ticket
controller calls it (always without a route id, so the route branch of the
source is never taken on this path). -/
def calculate_ticket_price (st : State) (experience_id : Nat) (party_size : Int) :
    Except String Int :=
  match findExperience st experience_id with
  | none => Except.error ("Experience not found")
  | some e =>
    if e.min_acts_for_route_price ≠ 0 ∧ party_size ≥ e.min_acts_for_route_price ∧
        e.route_price ≠ 0 then
      Except.ok e.route_price
    else Except.ok (e.individual_price * party_size)

/-- cheese/utils/pricing.py `calculate_deposit_amount` as the ticket
controller calls it (without a route id). -/
def calculate_deposit_amount (st : State) (experience_id : Nat) (total_price : Int) :
    Except String Int :=
  match findExperience st experience_id with
  | none => Except.error ("Experience not found")
  | some e =>
    if e.deposit_required then
      if e.deposit_type == "Amount" then Except.ok e.deposit_value
      else if e.deposit_type == "%" then Except.ok (total_price * e.deposit_value / 100)
      else Except.ok 0
    else Except.ok 0

/-- cheese/utils/pricing.py `calculate_route_price`. -/
def calculate_route_price (st : State) (route_id : Nat) (party_size : Int) :
    Except String Int :=
  match findRoute st route_id with
  | none => Except.error ("Route not found")
  | some route =>
    if route.price_mode == "Manual" && route.price != 0 then
      Except.ok (route.price * party_size)
    else if route.price_mode == "Sum" then
      route.experiences.foldlM
        (fun total row =>
          match findExperience st row.experience with
          | none => Except.error ("Experience not found")
          | some e =>
            if e.route_price ≠ 0 then Except.ok (total + e.route_price * party_size)
            else if e.individual_price ≠ 0 then
              Except.ok (total + e.individual_price * party_size)
            else Except.ok total) 0
    else
      route.experiences.foldlM
        (fun total row =>
          match findExperience st row.experience with
          | none => Except.error ("Experience not found")
          | some e =>
            if e.individual_price ≠ 0 then
              Except.ok (total + e.individual_price * party_size)
            else Except.ok total) 0

/-- CheeseRouteBooking.calculate_status inner derivation: the counts over
the gathered child ticket statuses, exactly the source arithmetic (the
source also computes a pending count it never uses). -/
def derive_route_status (ticket_statuses : List TicketStatus) : RouteBookingStatus :=
  let confirmed_count :=
    (ticket_statuses.filter (fun s => decide (s = TicketStatus.CONFIRMED))).length
  let cancelled_count :=
    (ticket_statuses.filter (fun s => decide (s = TicketStatus.CANCELLED))).length +
      (ticket_statuses.filter (fun s => decide (s = TicketStatus.EXPIRED))).length
  let total_count := ticket_statuses.length
  if cancelled_count = total_count then RouteBookingStatus.CANCELLED
  else if confirmed_count = total_count then RouteBookingStatus.CONFIRMED
  else if confirmed_count > 0 then RouteBookingStatus.PARTIALLY_CONFIRMED
  else RouteBookingStatus.PENDING

/-- CheeseRouteBooking.calculate_status: reload every linked child ticket,
mirror its data into the child table row, and derive the aggregate status
from the gathered statuses.  A missing linked ticket raises (frappe
get_doc). -/
def CheeseRouteBooking.calculate_status (st : State) (rb : RouteBooking) :
    Except String RouteBooking :=
  if rb.tickets.isEmpty then Except.ok rb
  else
    match rb.tickets.mapM
        (fun row =>
          match findTicket st row.ticket with
          | none => Except.error ("Ticket not found")
          | some t =>
            Except.ok
              ({ row with
                  experience := t.experience
                  slot := t.slot
                  party_size := t.party_size
                  status := t.status }, t.status)) with
    | Except.error e => Except.error e
    | Except.ok rows =>
      let ticket_statuses := rows.map (fun rs => rs.2)
      if ticket_statuses.isEmpty then Except.ok rb
      else
        Except.ok
          { rb with
              tickets := rows.map (fun rs => rs.1)
              status := derive_route_status ticket_statuses }

/-- CheeseRouteBooking.validate: check route and contact existence, derive
the status from the children when there are any, stamp an expiration on a
PENDING booking that has none. -/
def route_booking_validate (st : State) (rb : RouteBooking) (now : Nat) :
    Except String RouteBooking :=
  if ¬ st.routes.any (fun r => r.id == rb.route) then
    Except.error ("Route does not exist")
  else if ¬ st.contacts.contains rb.contact then
    Except.error ("Contact does not exist")
  else
    match (if rb.tickets.length > 0 then CheeseRouteBooking.calculate_status st rb
           else Except.ok rb) with
    | Except.error e => Except.error e
    | Except.ok rb1 =>
      if rb1.status = RouteBookingStatus.PENDING ∧ rb1.expires_at = none then
        match findRoute st rb1.route with
        | none => Except.error ("Route not found")
        | some route =>
          let ttl : Nat := if route.deposit_ttl_hours ≠ 0 then route.deposit_ttl_hours else 24
          Except.ok { rb1 with expires_at := some (now + ttl) }
      else Except.ok rb1

/-- Models `save()` of an existing Cheese Route Booking. -/
def route_booking_save (st : State) (rb : RouteBooking) (now : Nat) :
    Except String State :=
  match route_booking_validate st rb now with
  | Except.error e => Except.error e
  | Except.ok rb1 => Except.ok (setRouteBooking st rb1)

/-- Models `insert()` of a new Cheese Route Booking. -/
def route_booking_insert (st : State) (rb : RouteBooking) (now : Nat) :
    Except String State :=
  match route_booking_validate st rb now with
  | Except.error e => Except.error e
  | Except.ok rb1 => Except.ok { st with route_bookings := st.route_bookings ++ [rb1] }

/-- CheeseDeposit.validate: negative-paid and non-positive-required checks,
then the paid flip (PENDING only, stamping paid_at when missing), then the
lazy overdue flip of a past-due PENDING deposit. -/
def deposit_validate (d : Deposit) (now : Nat) : Except String Deposit :=
  if d.amount_paid ≠ 0 ∧ d.amount_paid < 0 then
    Except.error ("Amount Paid cannot be negative")
  else if d.amount_required ≤ 0 then
    Except.error ("Amount Required must be greater than 0")
  else
    let d1 :=
      if d.amount_paid ≠ 0 ∧ d.amount_paid ≥ d.amount_required ∧
          d.status = DepositStatus.PENDING then
        { d with status := DepositStatus.PAID,
                 paid_at := if d.paid_at = none then some now else d.paid_at }
      else d
    let overdue : Bool :=
      match d1.due_at with
      | some due => decide (due < now)
      | none => false
    let d2 :=
      if d1.status = DepositStatus.PENDING ∧ overdue then
        { d1 with status := DepositStatus.OVERDUE }
      else d1
    Except.ok d2

/-- Models `save()` of an existing Cheese Deposit. -/
def deposit_save (st : State) (d : Deposit) (now : Nat) : Except String State :=
  match deposit_validate d now with
  | Except.error e => Except.error e
  | Except.ok d1 => Except.ok (setDeposit st d1)

/-- Models `insert()` of a new Cheese Deposit. -/
def deposit_insert (st : State) (d : Deposit) (now : Nat) : Except String State :=
  match deposit_validate d now with
  | Except.error e => Except.error e
  | Except.ok d1 => Except.ok { st with deposits := st.deposits ++ [d1] }

/-- CheeseDeposit.record_payment, called as the deposit controller calls it
with ocr_payload = None (the source then skips its OCR-validation and
OCR-storage blocks): refuse a PAID or REFUNDED deposit, accumulate the paid
amount, record the verification method, flip to PAID with a fresh paid_at
when the total reaches the requirement, then save (deposit_validate). -/
def record_payment (d : Deposit) (amount : Int) (verification_method : String)
    (now : Nat) : Except String Deposit :=
  if d.status = DepositStatus.PAID ∨ d.status = DepositStatus.REFUNDED then
    Except.error ("Cannot record payment for this deposit")
  else
    let d1 :=
      { d with
          amount_paid := d.amount_paid + amount
          verification_method := verification_method }
    let d2 :=
      if d1.amount_paid ≥ d1.amount_required then
        { d1 with status := DepositStatus.PAID, paid_at := some now }
      else d1
    deposit_validate d2 now

/-- ticket_controller.create_pending_ticket: input validation and existence
checks, the booking policy gate, pricing, insertion of the PENDING ticket,
then the slot capacity recomputation, then commit.  Returns the new state
and the new ticket id. -/
def create_pending_ticket (st : State) (contact_id experience_id slot_id : Nat)
    (party_size : Int) (now : Nat) : Except String (State × Nat) :=
  if party_size < 1 then Except.error ("party_size must be at least 1")
  else if ¬ st.contacts.contains contact_id then Except.error ("Contact not found")
  else
    match findExperience st experience_id with
    | none => Except.error ("Experience not found")
    | some experience =>
      match findSlot st slot_id with
      | none => Except.error ("Slot not found")
      | some slot =>
        match validate_booking_policy st experience_id slot.slot_time now
            PolicyAction.booking with
        | Except.error e => Except.error e
        | Except.ok _ =>
          match calculate_ticket_price st experience_id party_size with
          | Except.error e => Except.error e
          | Except.ok total_price =>
            match calculate_deposit_amount st experience_id total_price with
            | Except.error e => Except.error e
            | Except.ok deposit_amount =>
              let ticket : Ticket :=
                { id := st.next_id
                  contact := contact_id
                  company := experience.company
                  experience := experience_id
                  slot := slot_id
                  route := none
                  party_size := party_size
                  status := TicketStatus.PENDING
                  expires_at := none
                  deposit_required := decide (deposit_amount > 0)
                  deposit_amount := deposit_amount }
              match ticket_insert { st with next_id := st.next_id + 1 } ticket now with
              | Except.error e => Except.error e
              | Except.ok st1 =>
                match update_slot_capacity st1 slot_id with
                | Except.error e => Except.error e
                | Except.ok st2 => Except.ok (st2, ticket.id)

/-- ticket_controller.confirm_ticket: only a PENDING ticket whose
expiration (when set) has not passed is confirmed; then the ticket is saved
with status CONFIRMED and the slot capacity is recomputed. -/
def confirm_ticket (st : State) (ticket_id now : Nat) : Except String State :=
  match findTicket st ticket_id with
  | none => Except.error ("Ticket not found")
  | some ticket =>
    if ticket.status ≠ TicketStatus.PENDING then
      Except.error ("Only PENDING tickets can be confirmed")
    else if (match ticket.expires_at with
             | some e => decide (e < now)
             | none => false) then
      Except.error ("Cannot confirm expired ticket")
    else
      match ticket_save st { ticket with status := TicketStatus.CONFIRMED } with
      | Except.error e => Except.error e
      | Except.ok st1 =>
        match update_slot_capacity st1 ticket.slot with
        | Except.error e => Except.error e
        | Except.ok st2 => Except.ok st2

/-- ticket_controller.reject_ticket. -/
def reject_ticket (st : State) (ticket_id : Nat) : Except String State :=
  match findTicket st ticket_id with
  | none => Except.error ("Ticket not found")
  | some ticket =>
    if ticket.status ≠ TicketStatus.PENDING then
      Except.error ("Only PENDING tickets can be rejected")
    else
      match ticket_save st { ticket with status := TicketStatus.REJECTED } with
      | Except.error e => Except.error e
      | Except.ok st1 => update_slot_capacity st1 ticket.slot

/-- ticket_controller.cancel_ticket: the controller admits PENDING and
CONFIRMED tickets, re-runs the cancellation policy gate for a CONFIRMED
one, then delegates to the doctype method CheeseTicket.cancel and
recomputes the slot capacity. -/
def cancel_ticket (st : State) (ticket_id now : Nat) : Except String State :=
  match findTicket st ticket_id with
  | none => Except.error ("Ticket not found")
  | some ticket =>
    if ticket.status ≠ TicketStatus.PENDING ∧ ticket.status ≠ TicketStatus.CONFIRMED then
      Except.error ("Only PENDING or CONFIRMED tickets can be cancelled")
    else
      match (if ticket.status = TicketStatus.CONFIRMED then
               match findSlot st ticket.slot with
               | none => Except.error ("Slot not found")
               | some slot =>
                 validate_booking_policy st ticket.experience slot.slot_time now
                   PolicyAction.cancel
             else Except.ok ()) with
      | Except.error e => Except.error e
      | Except.ok _ =>
        match CheeseTicket.cancel st ticket with
        | Except.error e => Except.error e
        | Except.ok st1 => update_slot_capacity st1 ticket.slot

/-- The transition table written inline in
ticket_controller.update_ticket_status — it differs from the doctype's
VALID_TRANSITIONS on PENDING → CANCELLED and on CHECKED_IN → NO_SHOW. -/
def controller_allowed_transitions : TicketStatus → List TicketStatus
  | TicketStatus.PENDING =>
    [TicketStatus.CONFIRMED, TicketStatus.REJECTED, TicketStatus.EXPIRED,
      TicketStatus.CANCELLED]
  | TicketStatus.CONFIRMED =>
    [TicketStatus.CHECKED_IN, TicketStatus.CANCELLED, TicketStatus.NO_SHOW]
  | TicketStatus.CHECKED_IN => [TicketStatus.COMPLETED, TicketStatus.NO_SHOW]
  | _ => []

/-- ticket_controller.update_ticket_status: validate against the
controller's own table, save (which re-validates against the doctype
table), and release capacity when the new status is CANCELLED, EXPIRED or
REJECTED. -/
def update_ticket_status (st : State) (ticket_id : Nat) (new_status : TicketStatus) :
    Except String State :=
  match findTicket st ticket_id with
  | none => Except.error ("Ticket not found")
  | some ticket =>
    if new_status ∉ controller_allowed_transitions ticket.status then
      Except.error ("Invalid status transition")
    else
      match ticket_save st { ticket with status := new_status } with
      | Except.error e => Except.error e
      | Except.ok st1 =>
        if new_status = TicketStatus.CANCELLED ∨ new_status = TicketStatus.EXPIRED ∨
            new_status = TicketStatus.REJECTED then
          update_slot_capacity st1 ticket.slot
        else Except.ok st1

/-- ticket_controller.mark_no_show: admits CONFIRMED and CHECKED_IN and
saves status NO_SHOW (the save re-validates against the doctype table). -/
def mark_no_show (st : State) (ticket_id : Nat) : Except String State :=
  match findTicket st ticket_id with
  | none => Except.error ("Ticket not found")
  | some ticket =>
    if ticket.status ≠ TicketStatus.CONFIRMED ∧ ticket.status ≠ TicketStatus.CHECKED_IN then
      Except.error ("Cannot mark no-show for this ticket")
    else ticket_save st { ticket with status := TicketStatus.NO_SHOW }

/-- The per-item existence validation loop of
route_booking_controller.create_route_reservation. -/
def validate_experiences_with_slots (st : State) :
    List (Nat × Nat) → Except String Unit
  | [] => Except.ok ()
  | (exp_id, slot_id) :: rest =>
    if ¬ st.experiences.any (fun e => e.id == exp_id) then
      Except.error ("Experience not found")
    else if ¬ st.slots.any (fun s => s.id == slot_id) then
      Except.error ("Slot not found")
    else validate_experiences_with_slots st rest

/-- The sequential child-creation loop of create_route_reservation.
Arguments after the route data: remaining stops, last committed state,
current state, the in-memory route booking document, created ticket ids.
On a child failure the source tries to cancel every created ticket (each
attempt throws — PENDING → CANCELLED is not in VALID_TRANSITIONS — and is
swallowed by a bare except), deletes the route booking and then calls
frappe.db.rollback(); since every successful child creation committed, the
rollback discards the whole uncommitted compensation, including the delete,
and the database is left exactly at the last committed state, which is what
this function returns on error. -/
def create_route_children (st : State) (contact_id route_id : Nat)
    (slot_map : List (Nat × Nat)) (party_size : Int) (now : Nat) :
    List RouteExperienceRow → State → State → RouteBooking → List Nat →
    State × Except String (State × RouteBooking × List Nat)
  | [], _committed, current, rb, tids => (current, Except.ok (current, rb, tids))
  | exp_row :: rest, committed, current, rb, tids =>
    match slot_map.lookup exp_row.experience with
    | none => (committed, Except.error ("No slot provided for experience"))
    | some slot_id =>
      match create_pending_ticket current contact_id exp_row.experience slot_id
          party_size now with
      | Except.error e => (committed, Except.error e)
      | Except.ok (cur1, ticket_id) =>
        match findTicket cur1 ticket_id with
        | none => (cur1, Except.error ("Ticket not found"))
        | some t =>
          match ticket_save cur1 { t with route := some route_id } with
          | Except.error e => (cur1, Except.error e)
          | Except.ok cur2 =>
            let row : RouteBookingTicketRow :=
              { ticket := ticket_id
                experience := exp_row.experience
                slot := slot_id
                party_size := party_size
                status := t.status }
            create_route_children st contact_id route_id slot_map party_size now
              rest cur1 cur2 { rb with tickets := rb.tickets ++ [row] }
              (tids ++ [ticket_id])

/-- route_booking_controller.create_route_reservation: validations, route
pricing and deposit computation, insertion of the PENDING route booking,
the sequential child reservation loop, the aggregate status recomputation
and save, the deposit insertion when required, then commit.  The returned
state is the committed database state whether the saga succeeded or
failed. -/
def create_route_reservation (st : State) (contact_id route_id : Nat)
    (experiences_with_slots : List (Nat × Nat)) (party_size : Int) (now : Nat) :
    State × Except String (Nat × List Nat) :=
  if party_size < 1 then (st, Except.error ("party_size must be at least 1"))
  else if ¬ st.contacts.contains contact_id then (st, Except.error ("Contact not found"))
  else
    match findRoute st route_id with
    | none => (st, Except.error ("Route not found"))
    | some route =>
      if route.status ≠ "ONLINE" then (st, Except.error ("Route is not ONLINE"))
      else
        match validate_experiences_with_slots st experiences_with_slots with
        | Except.error e => (st, Except.error e)
        | Except.ok _ =>
          if route.experiences.isEmpty then (st, Except.error ("Route has no experiences"))
          else
            match calculate_route_price st route_id party_size with
            | Except.error e => (st, Except.error e)
            | Except.ok total_price =>
              let deposit_required := route.deposit_required
              let deposit_amount : Int :=
                if route.deposit_required then
                  if route.deposit_type == "Amount" then route.deposit_value
                  else if route.deposit_type == "%" then
                    total_price * route.deposit_value / 100
                  else 0
                else 0
              let rb : RouteBooking :=
                { id := st.next_id
                  contact := contact_id
                  route := route_id
                  status := RouteBookingStatus.PENDING
                  total_price := total_price
                  deposit_required := deposit_required
                  deposit_amount := deposit_amount
                  expires_at := none
                  tickets := [] }
              match route_booking_insert { st with next_id := st.next_id + 1 } rb now with
              | Except.error e => (st, Except.error e)
              | Except.ok cur0 =>
                match create_route_children st contact_id route_id
                    experiences_with_slots party_size now route.experiences
                    st cur0 rb [] with
                | (failed, Except.error e) => (failed, Except.error e)
                | (_, Except.ok (cur, rb1, tids)) =>
                  match CheeseRouteBooking.calculate_status cur rb1 with
                  | Except.error e => (cur, Except.error e)
                  | Except.ok rb2 =>
                    match route_booking_save cur rb2 now with
                    | Except.error e => (cur, Except.error e)
                    | Except.ok cur1 =>
                      if deposit_required ∧ deposit_amount > 0 then
                        let deposit : Deposit :=
                          { id := cur1.next_id
                            entity_type := "Route Booking"
                            entity_id := rb.id
                            amount_required := deposit_amount
                            amount_paid := 0
                            due_at := some (now +
                              (if route.deposit_ttl_hours ≠ 0 then
                                route.deposit_ttl_hours else 24))
                            paid_at := none
                            status := DepositStatus.PENDING
                            verification_method := "" }
                        match deposit_insert { cur1 with next_id := cur1.next_id + 1 }
                            deposit now with
                        | Except.error e => (cur1, Except.error e)
                        | Except.ok cur2 => (cur2, Except.ok (rb.id, tids))
                      else (cur1, Except.ok (rb.id, tids))

/-- deposit_controller.get_deposit_instructions, deposit-creation part: a
deposit-requiring ticket with no deposit row yet gets one inserted with
entity_type "Cheese Ticket" (the literal the controller writes), amount
required from the ticket and a due time of now plus the experience TTL.
The read-only response building is omitted. -/
def get_deposit_instructions (st : State) (ticket_id now : Nat) : Except String State :=
  match findTicket st ticket_id with
  | none => Except.error ("Ticket not found")
  | some ticket =>
    if ¬ ticket.deposit_required then Except.ok st
    else if st.deposits.any
        (fun d => d.entity_type == "Cheese Ticket" && d.entity_id == ticket_id) then
      Except.ok st
    else
      match findExperience st ticket.experience with
      | none => Except.error ("Experience not found")
      | some experience =>
        let due_at := now +
          (if experience.deposit_ttl_hours ≠ 0 then experience.deposit_ttl_hours else 24)
        let deposit : Deposit :=
          { id := st.next_id
            entity_type := "Cheese Ticket"
            entity_id := ticket_id
            amount_required := ticket.deposit_amount
            amount_paid := 0
            due_at := some due_at
            paid_at := none
            status := DepositStatus.PENDING
            verification_method := "" }
        deposit_insert { st with next_id := st.next_id + 1 } deposit now

/-- Insertion into the python `set` of slot names pending a capacity
update (kept as a deduplicated list). -/
def add_slot (slots : List Nat) (slot_id : Nat) : List Nat :=
  if slots.contains slot_id then slots else slots ++ [slot_id]

/-- The final loops of every sweep: update each collected slot, logging
and swallowing any error. -/
def update_slots_loop : List Nat → State → State
  | [], st => st
  | slot_id :: rest, st =>
    match update_slot_capacity st slot_id with
    | Except.error _ => update_slots_loop rest st
    | Except.ok st1 => update_slots_loop rest st1

/-- The ticket loop of scheduler/expiration.py `expire_pending_tickets`:
each selected PENDING ticket is re-loaded and saved with status EXPIRED.
The loop has no try/except, so a save error propagates out of the sweep
(and the final commit is never reached). -/
def expire_tickets_loop (st : State) (slots : List Nat) :
    List Nat → Except String (State × List Nat × Nat)
  | [] => Except.ok (st, slots, 0)
  | ticket_id :: rest =>
    match findTicket st ticket_id with
    | none => Except.error ("Ticket not found")
    | some t =>
      match ticket_save st { t with status := TicketStatus.EXPIRED } with
      | Except.error e => Except.error e
      | Except.ok st1 =>
        match expire_tickets_loop st1 (add_slot slots t.slot) rest with
        | Except.error e => Except.error e
        | Except.ok (st2, slots2, n) => Except.ok (st2, slots2, n + 1)

/-- The child loop inside the route-booking phase of the expiration sweep:
expire each still-PENDING child; a raised error aborts the enclosing
route booking's try block but keeps the mutations already made.  The last
component is false when the loop was aborted. -/
def expire_rb_children (st : State) (slots : List Nat) :
    List RouteBookingTicketRow → State × List Nat × Bool
  | [] => (st, slots, true)
  | row :: rest =>
    match findTicket st row.ticket with
    | none => (st, slots, false)
    | some t =>
      if t.status = TicketStatus.PENDING then
        match ticket_save st { t with status := TicketStatus.EXPIRED } with
        | Except.error _ => (st, slots, false)
        | Except.ok st1 => expire_rb_children st1 (add_slot slots t.slot) rest
      else expire_rb_children st slots rest

/-- The route-booking loop of the expiration sweep; each booking is
processed inside its own try/except, so an error only skips the rest of
that booking. -/
def expire_route_bookings_loop (now : Nat) :
    List Nat → State → List Nat → State × List Nat × Nat
  | [], st, slots => (st, slots, 0)
  | rb_id :: rest, st, slots =>
    match findRouteBooking st rb_id with
    | none => expire_route_bookings_loop now rest st slots
    | some rb =>
      match expire_rb_children st slots rb.tickets with
      | (st1, slots1, false) => expire_route_bookings_loop now rest st1 slots1
      | (st1, slots1, true) =>
        match CheeseRouteBooking.calculate_status st1 rb with
        | Except.error _ => expire_route_bookings_loop now rest st1 slots1
        | Except.ok rb1 =>
          match route_booking_save st1 rb1 now with
          | Except.error _ => expire_route_bookings_loop now rest st1 slots1
          | Except.ok st2 =>
            match expire_route_bookings_loop now rest st2 slots1 with
            | (st3, slots3, n) => (st3, slots3, n + 1)

/-- scheduler/expiration.py `expire_pending_tickets`: select the PENDING
tickets past their expiration and expire them (uncaught errors propagate
and nothing is committed), update the collected slots, then select the
PENDING route bookings past their expiration, expire their PENDING
children and recompute their status, update the collected slots again,
commit, and return the processed count. -/
def expire_pending_tickets (st : State) (now : Nat) : Except String (State × Nat) :=
  let pending_ids :=
    ((st.tickets.filter
        (fun t => decide (t.status = TicketStatus.PENDING) &&
          (match t.expires_at with
           | some e => decide (e < now)
           | none => false))).map (fun t => t.id))
  match expire_tickets_loop st [] pending_ids with
  | Except.error e => Except.error e
  | Except.ok (st1, slots, expired_count) =>
    let st2 := update_slots_loop slots st1
    let rb_ids :=
      ((st2.route_bookings.filter
          (fun rb => decide (rb.status = RouteBookingStatus.PENDING) &&
            (match rb.expires_at with
             | some e => decide (e < now)
             | none => false))).map (fun rb => rb.id))
    match expire_route_bookings_loop now rb_ids st2 slots with
    | (st3, slots3, expired_route_bookings) =>
      let st4 := update_slots_loop slots3 st3
      Except.ok (st4, expired_count + expired_route_bookings)

/-- The inner child-cancellation loop of the Route Booking branch of
scheduler/deposit_overdue.py: each child is cancelled inside its own
try/except (PENDING children make the save throw, which is logged and
skipped). -/
def overdue_cancel_rb_children (st : State) (slots : List Nat) :
    List RouteBookingTicketRow → State × List Nat
  | [] => (st, slots)
  | row :: rest =>
    match findTicket st row.ticket with
    | none => overdue_cancel_rb_children st slots rest
    | some t =>
      if t.status = TicketStatus.PENDING ∨ t.status = TicketStatus.CONFIRMED then
        match ticket_save st { t with status := TicketStatus.CANCELLED } with
        | Except.error _ => overdue_cancel_rb_children st slots rest
        | Except.ok st1 => overdue_cancel_rb_children st1 (add_slot slots t.slot) rest
      else overdue_cancel_rb_children st slots rest

/-- One deposit of scheduler/deposit_overdue.py `process_overdue_deposits`,
inside the per-deposit try/except.  The deposit is saved OVERDUE, then the
owner branch runs on the recorded `entity_type` tag: the literal "Ticket"
cancels an active owning ticket (after which the access to the nonexistent
field `ticket.route_booking` raises AttributeError, aborting the iteration
after the mutations and before the count); the literal "Route Booking"
sets the booking CANCELLED (the save re-derives the status from the
children, which are not yet cancelled) and then cancels active children;
any other recorded tag — in particular the "Cheese Ticket" the deposit
controller writes — matches neither branch and no owner is touched.
Returns the new state, the slot and route-booking work lists, and 1 when
the processed count was reached. -/
def process_one_overdue (st : State) (slots rbs : List Nat) (deposit_id now : Nat) :
    State × List Nat × List Nat × Nat :=
  match findDeposit st deposit_id with
  | none => (st, slots, rbs, 0)
  | some d =>
    match deposit_save st { d with status := DepositStatus.OVERDUE } now with
    | Except.error _ => (st, slots, rbs, 0)
    | Except.ok st1 =>
      if d.entity_type == "Ticket" then
        match findTicket st1 d.entity_id with
        | none => (st1, slots, rbs, 0)
        | some t =>
          if t.status = TicketStatus.PENDING ∨ t.status = TicketStatus.CONFIRMED then
            match ticket_save st1 { t with status := TicketStatus.CANCELLED } with
            | Except.error _ => (st1, slots, rbs, 0)
            | Except.ok st2 => (st2, add_slot slots t.slot, rbs, 0)
          else (st1, slots, rbs, 1)
      else if d.entity_type == "Route Booking" then
        match findRouteBooking st1 d.entity_id with
        | none => (st1, slots, rbs, 0)
        | some rb =>
          if rb.status = RouteBookingStatus.PENDING ∨
              rb.status = RouteBookingStatus.PARTIALLY_CONFIRMED then
            match route_booking_save st1 { rb with status := RouteBookingStatus.CANCELLED }
                now with
            | Except.error _ => (st1, slots, rbs, 0)
            | Except.ok st2 =>
              match overdue_cancel_rb_children st2 slots rb.tickets with
              | (st3, slots3) => (st3, slots3, rbs, 1)
          else (st1, slots, rbs, 1)
      else (st1, slots, rbs, 1)

/-- The deposit loop of `process_overdue_deposits`. -/
def process_overdue_loop (now : Nat) :
    List Nat → State → List Nat → List Nat → State × List Nat × List Nat × Nat
  | [], st, slots, rbs => (st, slots, rbs, 0)
  | deposit_id :: rest, st, slots, rbs =>
    match process_one_overdue st slots rbs deposit_id now with
    | (st1, slots1, rbs1, k) =>
      match process_overdue_loop now rest st1 slots1 rbs1 with
      | (st2, slots2, rbs2, n) => (st2, slots2, rbs2, n + k)

/-- The final route-booking status refresh loop of
`process_overdue_deposits` (each inside a try/except). -/
def overdue_rb_refresh_loop (now : Nat) : List Nat → State → State
  | [], st => st
  | rb_id :: rest, st =>
    match findRouteBooking st rb_id with
    | none => overdue_rb_refresh_loop now rest st
    | some rb =>
      match CheeseRouteBooking.calculate_status st rb with
      | Except.error _ => overdue_rb_refresh_loop now rest st
      | Except.ok rb1 =>
        match route_booking_save st rb1 now with
        | Except.error _ => overdue_rb_refresh_loop now rest st
        | Except.ok st1 => overdue_rb_refresh_loop now rest st1

/-- scheduler/deposit_overdue.py `process_overdue_deposits`: select the
PENDING deposits whose due time has passed (due_at less than or equal to
now), process each inside a try/except, then update the collected slots
and refresh the collected route bookings, commit, and return the count. -/
def process_overdue_deposits (st : State) (now : Nat) : State × Nat :=
  let overdue_ids :=
    ((st.deposits.filter
        (fun d => decide (d.status = DepositStatus.PENDING) &&
          (match d.due_at with
           | some due => decide (due ≤ now)
           | none => false))).map (fun d => d.id))
  match process_overdue_loop now overdue_ids st [] [] with
  | (st1, slots, rbs, processed_count) =>
    let st2 := update_slots_loop slots st1
    let st3 := overdue_rb_refresh_loop now rbs st2
    (st3, processed_count)

/-- The ticket loop of scheduler/no_show.py `process_no_shows`: each
selected ticket is saved with status NO_SHOW; the loop has no try/except,
so a save error propagates out of the sweep. -/
def no_show_loop (st : State) (slots : List Nat) :
    List Nat → Except String (State × List Nat × Nat)
  | [] => Except.ok (st, slots, 0)
  | ticket_id :: rest =>
    match findTicket st ticket_id with
    | none => Except.error ("Ticket not found")
    | some t =>
      match ticket_save st { t with status := TicketStatus.NO_SHOW } with
      | Except.error e => Except.error e
      | Except.ok st1 =>
        match no_show_loop st1 (add_slot slots t.slot) rest with
        | Except.error e => Except.error e
        | Except.ok (st2, slots2, n) => Except.ok (st2, slots2, n + 1)

/-- scheduler/no_show.py `process_no_shows`: select the CONFIRMED tickets
whose slot time has passed and which have no attendance row, mark each
NO_SHOW, update the collected slots, commit, and return the count. -/
def process_no_shows (st : State) (now : Nat) : Except String (State × Nat) :=
  let no_show_ids :=
    ((st.tickets.filter
        (fun t => decide (t.status = TicketStatus.CONFIRMED) &&
          (match findSlot st t.slot with
           | some s => decide (s.slot_time < now)
           | none => false) &&
          !(st.attendances.contains t.id))).map (fun t => t.id))
  match no_show_loop st [] no_show_ids with
  | Except.error e => Except.error e
  | Except.ok (st1, slots, n) => Except.ok (update_slots_loop slots st1, n)

/-- Modelled from the spec: the sum of party sizes of the reservations on a
slot whose status is in the active set, pending or confirmed, which the
spec says the reserved amount must equal. -/
def active_party_size_sum (tickets : List Ticket) (slot_name : Nat) : Int :=
  ((tickets.filter
      (fun t => t.slot == slot_name &&
        (decide (t.status = TicketStatus.PENDING) ||
          decide (t.status = TicketStatus.CONFIRMED)))).map
    (fun t => t.party_size)).sum

/-- Modelled from the spec: the section 4.2 transition table exactly as the
claim states it, including CHECKED_IN to NO_SHOW. -/
def spec_transition_table : TicketStatus → List TicketStatus
  | TicketStatus.PENDING => [TicketStatus.CONFIRMED, TicketStatus.EXPIRED, TicketStatus.REJECTED]
  | TicketStatus.CONFIRMED => [TicketStatus.CHECKED_IN, TicketStatus.CANCELLED, TicketStatus.NO_SHOW]
  | TicketStatus.CHECKED_IN => [TicketStatus.COMPLETED, TicketStatus.NO_SHOW]
  | _ => []

/-- Modelled from the spec: the section 4.4 aggregate status derivation —
all children cancelled or expired gives CANCELLED, all confirmed gives
CONFIRMED, at least one confirmed gives PARTIALLY_CONFIRMED, otherwise
PENDING. -/
def spec_route_status (statuses : List TicketStatus) : RouteBookingStatus :=
  if statuses.all
      (fun s => decide (s = TicketStatus.CANCELLED) || decide (s = TicketStatus.EXPIRED)) then
    RouteBookingStatus.CANCELLED
  else if statuses.all (fun s => decide (s = TicketStatus.CONFIRMED)) then
    RouteBookingStatus.CONFIRMED
  else if statuses.any (fun s => decide (s = TicketStatus.CONFIRMED)) then
    RouteBookingStatus.PARTIALLY_CONFIRMED
  else RouteBookingStatus.PENDING

/-- Observer walking a route booking's child rows and collecting the
current statuses of the linked tickets from the store. -/
def route_children_statuses (st : State) (rb_id : Nat) : List TicketStatus :=
  match findRouteBooking st rb_id with
  | none => []
  | some rb => rb.tickets.filterMap (fun row => (findTicket st row.ticket).map (fun t => t.status))

/-- Runner keeping the committed state: a raised error means the request
died before its commit, leaving the given fallback state. -/
def stateOf (fallback : State) : Except String State → State
  | Except.ok st => st
  | Except.error _ => fallback

/-- Runner for the operations returning a state and an id. -/
def stateOfPair (fallback : State) : Except String (State × Nat) → State
  | Except.ok (st, _) => st
  | Except.error _ => fallback

def exceptOk {α : Type} : Except String α → Bool
  | Except.ok _ => true
  | Except.error _ => false

/-- Experience with no deposit requirement, used by the capacity and saga
scenarios. -/
def exp_plain (experience_id : Nat) : Experience :=
  { id := experience_id
    company := 5
    individual_price := 10
    route_price := 0
    min_acts_for_route_price := 0
    deposit_required := false
    deposit_type := ""
    deposit_value := 0
    deposit_ttl_hours := 0 }

/-- Experience with a fixed 50 deposit, used by the deposit scenarios. -/
def exp_deposit (experience_id : Nat) : Experience :=
  { id := experience_id
    company := 5
    individual_price := 10
    route_price := 0
    min_acts_for_route_price := 0
    deposit_required := true
    deposit_type := "Amount"
    deposit_value := 50
    deposit_ttl_hours := 24 }

def slot_open (slot_id : Nat) (max_capacity reserved : Int) : Slot :=
  { id := slot_id
    max_capacity := max_capacity
    reserved_capacity := reserved
    slot_status := SlotStatus.OPEN
    slot_time := 1000 }

def ticket_mk (ticket_id slot_id : Nat) (party : Int) (status : TicketStatus)
    (expires : Option Nat) : Ticket :=
  { id := ticket_id
    contact := 1
    company := 5
    experience := 10
    slot := slot_id
    route := none
    party_size := party
    status := status
    expires_at := expires
    deposit_required := false
    deposit_amount := 0 }

def route_two_stops : Route :=
  { id := 50
    status := "ONLINE"
    price_mode := "Sum"
    price := 0
    experiences := [{ experience := 10, sequence := 1 }, { experience := 11, sequence := 2 }]
    deposit_required := false
    deposit_type := ""
    deposit_value := 0
    deposit_ttl_hours := 0 }

def empty_state : State :=
  { contacts := [1]
    experiences := []
    policies := []
    routes := []
    slots := []
    tickets := []
    route_bookings := []
    deposits := []
    attendances := []
    next_id := 100 }

/-- Scenario for the capacity claim: one slot of maximum capacity 4. -/
def c1_base : State :=
  { empty_state with
      experiences := [exp_plain 10]
      slots := [slot_open 20 4 0] }

def c1_st1 : State := stateOfPair c1_base (create_pending_ticket c1_base 1 10 20 2 0)

def c1_st2 : State := stateOf c1_st1 (confirm_ticket c1_st1 100 0)

def c1_stf : State := stateOfPair c1_st2 (create_pending_ticket c1_st2 1 10 20 4 0)

/-- Scenario for the saga claim: stop 2 has only 1 seat, so its child
reservation for a party of 2 fails after stop 1 was created. -/
def c3_base : State :=
  { empty_state with
      experiences := [exp_plain 10, exp_plain 11]
      routes := [route_two_stops]
      slots := [slot_open 20 4 0, slot_open 21 1 0] }

def c3_run : State × Except String (Nat × List Nat) :=
  create_route_reservation c3_base 1 50 [(10, 20), (11, 21)] 2 0

/-- Scenario for the aggregate-status claim: both stops have room, the saga
succeeds, then stop 1 is confirmed. -/
def c4_base : State :=
  { empty_state with
      experiences := [exp_plain 10, exp_plain 11]
      routes := [route_two_stops]
      slots := [slot_open 20 4 0, slot_open 21 4 0] }

def c4_run : State × Except String (Nat × List Nat) :=
  create_route_reservation c4_base 1 50 [(10, 20), (11, 21)] 2 0

def c4_st : State := c4_run.1

def c4_stf : State := stateOf c4_st (confirm_ticket c4_st 101 0)

/-- Scenario for the cancel claim: a PENDING reservation. -/
def c5_base : State :=
  { empty_state with
      experiences := [exp_plain 10]
      slots := [slot_open 20 4 2]
      tickets := [ticket_mk 100 20 2 TicketStatus.PENDING (some 24)]
      next_id := 101 }

/-- Scenario for the transition-table claim: a CHECKED_IN reservation. -/
def c2_base : State :=
  { empty_state with
      experiences := [exp_plain 10]
      slots := [slot_open 20 4 0]
      tickets := [ticket_mk 100 20 2 TicketStatus.CHECKED_IN none]
      next_id := 101 }

/-- Scenario for the overdue-deposit sweep claim: a PENDING ticket that
requires a deposit; one deposit recorded the way the repository records it
(entity_type "Cheese Ticket", inserted by get_deposit_instructions) and one
recorded with the tag "Ticket" that the sweep's own branch expects. -/
def c8_base : State :=
  { empty_state with
      experiences := [exp_deposit 10]
      slots := [slot_open 20 4 2]
      tickets :=
        [{ ticket_mk 100 20 2 TicketStatus.PENDING (some 24) with
            deposit_required := true
            deposit_amount := 50 }]
      deposits :=
        [{ id := 99
           entity_type := "Ticket"
           entity_id := 100
           amount_required := 50
           amount_paid := 0
           due_at := some 24
           paid_at := none
           status := DepositStatus.PENDING
           verification_method := "" }]
      next_id := 101 }

def c8_st1 : State := stateOf c8_base (get_deposit_instructions c8_base 100 0)

def c8_stf : State := (process_overdue_deposits c8_st1 30).1

/-- Scenario for the sweep idempotence claim: a party of 3 on a slot of
maximum 4 is created, then its hold expires; the expiration sweep re-runs
the capacity validation, which the stored reservation itself makes fail. -/
def c9_base : State :=
  { empty_state with
      experiences := [exp_plain 10]
      slots := [slot_open 20 4 0] }

def c9_st1 : State := stateOfPair c9_base (create_pending_ticket c9_base 1 10 20 3 0)

/-- Runner for deposit operations: an error leaves the stored document
unchanged. -/
def depositOf (fallback : Deposit) : Except String Deposit → Deposit
  | Except.ok d => d
  | Except.error _ => fallback

/-- Deposit scenario of the payment claim: required 100, nothing paid, no
due time. -/
def c7_deposit : Deposit :=
  { id := 1
    entity_type := "Cheese Ticket"
    entity_id := 100
    amount_required := 100
    amount_paid := 0
    due_at := none
    paid_at := none
    status := DepositStatus.PENDING
    verification_method := "" }

def c7_d1 : Deposit := depositOf c7_deposit (record_payment c7_deposit 60 ("Manual") 5)

def c7_d2 : Deposit := depositOf c7_d1 (record_payment c7_d1 40 ("Manual") 6)

/-- C1: the claim fails on the code.  In a state reached by the engine's
own operations — book a party of 2, confirm it, book a party of 4 on the
same slot of maximum capacity 4 — the slot's stored reserved amount is 4,
the sum of party sizes of the reservations in the active set (pending or
confirmed) is 6, so the reserved amount does not equal the active sum and
the active sum exceeds the maximum capacity of the unblocked slot. -/
theorem C1_counterexample :
    exceptOk ((create_pending_ticket c1_base 1 10 20 2 0).map (fun p => p.1)) = true ∧
    exceptOk (confirm_ticket c1_st1 100 0) = true ∧
    exceptOk ((create_pending_ticket c1_st2 1 10 20 4 0).map (fun p => p.1)) = true ∧
    (findSlot c1_stf 20).map (fun s => s.reserved_capacity) = some 4 ∧
    (findSlot c1_stf 20).map (fun s => s.max_capacity) = some 4 ∧
    (findSlot c1_stf 20).map (fun s => s.slot_status) = some SlotStatus.CLOSED ∧
    active_party_size_sum c1_stf.tickets 20 = 6 ∧
    ¬ (findSlot c1_stf 20).map (fun s => s.reserved_capacity) =
        some (active_party_size_sum c1_stf.tickets 20) ∧
    ¬ active_party_size_sum c1_stf.tickets 20 ≤ 4 := by
  decide

/-- C2: the code rejects CHECKED_IN to NO_SHOW on every path although the
claimed table allows it and although both controller paths advertise it:
mark_no_show and update_ticket_status both fail with the doctype's
state-transition error on a CHECKED_IN ticket, because
CheeseTicket.VALID_TRANSITIONS omits NO_SHOW for CHECKED_IN; the
controller's inline table moreover disagrees with the doctype's on
PENDING to CANCELLED, so the transition rule is not enforced identically
on every path. -/
theorem C2_checked_in_no_show_rejected :
    (findTicket c2_base 100).map (fun t => t.status) = some TicketStatus.CHECKED_IN ∧
    TicketStatus.NO_SHOW ∈ spec_transition_table TicketStatus.CHECKED_IN ∧
    TicketStatus.NO_SHOW ∈ controller_allowed_transitions TicketStatus.CHECKED_IN ∧
    TicketStatus.NO_SHOW ∉ VALID_TRANSITIONS TicketStatus.CHECKED_IN ∧
    mark_no_show c2_base 100 = Except.error ("Invalid status transition") ∧
    update_ticket_status c2_base 100 TicketStatus.NO_SHOW =
      Except.error ("Invalid status transition") ∧
    TicketStatus.CANCELLED ∈ controller_allowed_transitions TicketStatus.PENDING ∧
    TicketStatus.CANCELLED ∉ VALID_TRANSITIONS TicketStatus.PENDING := by
  decide

/-- C3: the compensation path of the route-booking saga does not release
anything.  With stop 2 able to seat only 1, creating a route reservation
for a party of 2 fails after stop 1's reservation was created and
committed; in the state the saga leaves behind, the stop-1 reservation is
still PENDING, its slot still holds the reserved capacity 2, and the
route booking record still exists. -/
theorem C3_saga_compensation_leaves_capacity_held :
    exceptOk c3_run.2 = false ∧
    (findTicket c3_run.1 101).map (fun t => t.status) = some TicketStatus.PENDING ∧
    (findSlot c3_run.1 20).map (fun s => s.reserved_capacity) = some 2 ∧
    calculate_reserved_capacity c3_run.1.tickets 20 = 2 ∧
    (findRouteBooking c3_run.1 100).isSome = true := by
  decide

/-- C4: the claim fails on the code.  After a two-stop route booking is
created and the stop-1 reservation is confirmed through the engine's own
confirm operation, the stored route booking status is still PENDING while
the pure function of the current child statuses gives
PARTIALLY_CONFIRMED: confirming a child does not recompute the stored
aggregate. -/
theorem C4_counterexample :
    exceptOk c4_run.2 = true ∧
    exceptOk (confirm_ticket c4_st 101 0) = true ∧
    route_children_statuses c4_stf 100 = [TicketStatus.CONFIRMED, TicketStatus.PENDING] ∧
    spec_route_status (route_children_statuses c4_stf 100) =
      RouteBookingStatus.PARTIALLY_CONFIRMED ∧
    (findRouteBooking c4_stf 100).map (fun rb => rb.status) =
      some RouteBookingStatus.PENDING ∧
    RouteBookingStatus.PENDING ≠ RouteBookingStatus.PARTIALLY_CONFIRMED := by
  decide

/-- C5: cancelling a PENDING reservation always fails although the claim
(and the controller's own precondition) allow it: the doctype method
CheeseTicket.cancel refuses every status but CONFIRMED, and PENDING to
CANCELLED is not in VALID_TRANSITIONS either. -/
theorem C5_pending_cancel_always_fails :
    (findTicket c5_base 100).map (fun t => t.status) = some TicketStatus.PENDING ∧
    cancel_ticket c5_base 100 0 =
      Except.error ("Only CONFIRMED tickets can be cancelled") ∧
    TicketStatus.CANCELLED ∉ VALID_TRANSITIONS TicketStatus.PENDING := by
  decide

/-- C8: the overdue-deposit sweep marks the deposit OVERDUE but never
cancels the owner.  The repository records ticket deposits with
entity_type "Cheese Ticket" (get_deposit_instructions), which matches
neither of the sweep's owner branches ("Ticket" / "Route Booking"); and
even for a deposit recorded with the tag "Ticket" the cancellation of a
PENDING owner throws (PENDING to CANCELLED is not a valid transition) and
is swallowed.  After the sweep both deposits are OVERDUE while the owning
PENDING reservation is untouched and its slot capacity is still held. -/
theorem C8_overdue_sweep_does_not_cancel_owner :
    exceptOk (get_deposit_instructions c8_base 100 0) = true ∧
    (findDeposit c8_st1 101).map (fun d => d.entity_type) = some ("Cheese Ticket") ∧
    (findDeposit c8_st1 101).map (fun d => d.status) = some DepositStatus.PENDING ∧
    (findDeposit c8_stf 101).map (fun d => d.status) = some DepositStatus.OVERDUE ∧
    (findDeposit c8_stf 99).map (fun d => d.status) = some DepositStatus.OVERDUE ∧
    (findTicket c8_stf 100).map (fun t => t.status) = some TicketStatus.PENDING ∧
    (findSlot c8_stf 20).map (fun s => s.reserved_capacity) = some 2 := by
  decide

/-- C9: the expiration sweep is not safe to run at all, let alone twice, on
a reachable state: a party of 3 booked on an empty slot of maximum 4 makes
the sweep's save of the EXPIRED status re-run validate_capacity against a
stored availability of 1, which raises; the loop has no exception handler,
so the sweep errors before committing anything, and a second run on the
unchanged state raises the same error. -/
theorem C9_expiration_sweep_errors :
    exceptOk ((create_pending_ticket c9_base 1 10 20 3 0).map (fun p => p.1)) = true ∧
    (findTicket c9_st1 100).map (fun t => t.status) = some TicketStatus.PENDING ∧
    (findTicket c9_st1 100).map (fun t => t.expires_at) = some (some 24) ∧
    expire_pending_tickets c9_st1 30 =
      Except.error ("Party size exceeds available capacity") := by
  decide

/-- Replacing the element of a keyed list that a find? query returns makes
the same query return the replacement. -/
theorem find?_map_replace {α : Type} (key : α → Nat) (a : α) (l : List α) (k : Nat)
    (hk : key a = k) (h : (l.find? (fun x => key x == k)).isSome = true) :
    (l.map (fun x => if key x == key a then a else x)).find? (fun x => key x == k) =
      some a := by
  induction l with
  | nil => simp at h
  | cons x xs ih =>
    by_cases hx : key x = k
    · have hb : (key x == key a) = true := by simp [hx, hk]
      simp only [List.map_cons, hb, if_true]
      exact List.find?_cons_of_pos _ (by simp [hk])
    · have hb : (key x == key a) = false := by simp [hx, hk]
      have hp : (key x == k) = false := by simp [hx]
      simp only [List.map_cons, hb, if_false]
      rw [List.find?_cons_of_neg _ (by simp [hx])]
      refine ih ?_
      rw [List.find?_cons_of_neg _ (by simp [hx])] at h
      exact h

theorem findSlot_setSlot (st : State) (s : Slot) (k : Nat) (hk : s.id = k)
    (h : (findSlot st k).isSome = true) : findSlot (setSlot st s) k = some s := by
  simp only [findSlot] at h
  simp only [findSlot, setSlot]
  exact find?_map_replace Slot.id s st.slots k hk h

theorem findTicket_setTicket (st : State) (t : Ticket) (k : Nat) (hk : t.id = k)
    (h : (findTicket st k).isSome = true) : findTicket (setTicket st t) k = some t := by
  simp only [findTicket] at h
  simp only [findTicket, setTicket]
  exact find?_map_replace Ticket.id t st.tickets k hk h

theorem setSlot_tickets (st : State) (s : Slot) : (setSlot st s).tickets = st.tickets := rfl

theorem setTicket_slots (st : State) (t : Ticket) : (setTicket st t).slots = st.slots := rfl

theorem findSlot_key (st : State) (slot_id : Nat) (s : Slot)
    (h : findSlot st slot_id = some s) : s.id = slot_id := by
  have := List.find?_some h
  simpa using this

theorem findTicket_key (st : State) (ticket_id : Nat) (t : Ticket)
    (h : findTicket st ticket_id = some t) : t.id = ticket_id := by
  have := List.find?_some h
  simpa using this

theorem update_slot_status_id (s : Slot) : s.update_slot_status.id = s.id := by
  unfold Slot.update_slot_status
  split
  · split <;> rfl
  · rfl

theorem update_slot_status_reserved (s : Slot) :
    s.update_slot_status.reserved_capacity = s.reserved_capacity := by
  unfold Slot.update_slot_status
  split
  · split <;> rfl
  · rfl

theorem update_slot_status_max (s : Slot) :
    s.update_slot_status.max_capacity = s.max_capacity := by
  unfold Slot.update_slot_status
  split
  · split <;> rfl
  · rfl

theorem update_slot_capacity_eq (st : State) (slot_id : Nat) (s : Slot)
    (h : findSlot st slot_id = some s) :
    update_slot_capacity st slot_id =
      Except.ok (setSlot st ((s.recompute_reserved_capacity st.tickets).update_slot_status)) := by
  unfold update_slot_capacity
  rw [h]

/-- C10: every capacity recomputation (cheese/utils/capacity.py
update_slot_capacity, also run by every slot save) leaves a BLOCKED slot
BLOCKED and sets a non-BLOCKED slot to CLOSED exactly when the freshly
recomputed available capacity is at most 0 and to OPEN otherwise — so a
manually set CLOSED does not survive a recomputation with positive
availability. -/
theorem C10_slot_status_recompute (st : State) (slot_id : Nat) (s : Slot)
    (h : findSlot st slot_id = some s) :
    ∃ st1 s1, update_slot_capacity st slot_id = Except.ok st1 ∧
      findSlot st1 slot_id = some s1 ∧
      s1.reserved_capacity = calculate_reserved_capacity st.tickets slot_id ∧
      (s.slot_status = SlotStatus.BLOCKED → s1.slot_status = SlotStatus.BLOCKED) ∧
      (s.slot_status ≠ SlotStatus.BLOCKED →
        (s1.slot_status = SlotStatus.CLOSED ↔
          s.max_capacity - calculate_reserved_capacity st.tickets slot_id ≤ 0) ∧
        (s1.slot_status = SlotStatus.OPEN ↔
          0 < s.max_capacity - calculate_reserved_capacity st.tickets slot_id)) := by
  have hid : s.id = slot_id := findSlot_key st slot_id s h
  have hsome : (findSlot st slot_id).isSome = true := by rw [h]; rfl
  set srec := s.recompute_reserved_capacity st.tickets with hsrec
  have hrec_id : srec.id = s.id := rfl
  have hrec_res : srec.reserved_capacity = calculate_reserved_capacity st.tickets s.id := rfl
  have hrec_max : srec.max_capacity = s.max_capacity := rfl
  have hrec_status : srec.slot_status = s.slot_status := rfl
  refine ⟨setSlot st srec.update_slot_status, srec.update_slot_status,
    update_slot_capacity_eq st slot_id s h, ?_, ?_, ?_, ?_⟩
  · exact findSlot_setSlot st srec.update_slot_status slot_id
      (by rw [update_slot_status_id, hrec_id, hid]) hsome
  · rw [update_slot_status_reserved, hrec_res, hid]
  · intro hb
    unfold Slot.update_slot_status
    rw [if_neg]
    · exact hb ▸ hrec_status
    · simp [hrec_status, hb]
  · intro hb
    have hnb : srec.slot_status ≠ SlotStatus.BLOCKED := by rw [hrec_status]; exact hb
    constructor
    · unfold Slot.update_slot_status
      rw [if_pos hnb]
      rw [hrec_res, hrec_max, hid]
      by_cases hc : s.max_capacity - calculate_reserved_capacity st.tickets slot_id ≤ 0
      · simp [hc]
      · simp [hc]
    · unfold Slot.update_slot_status
      rw [if_pos hnb]
      rw [hrec_res, hrec_max, hid]
      by_cases hc : s.max_capacity - calculate_reserved_capacity st.tickets slot_id ≤ 0
      · simp only [hc, if_true]
        constructor
        · intro hcon; exact absurd hcon (by simp)
        · intro hcon; omega
      · simp [hc]
        omega

/-- Witness for C10 at the concrete slot of the capacity scenario. -/
theorem C10_slot_status_recompute_witness :
    ∃ st1 s1, update_slot_capacity c1_base 20 = Except.ok st1 ∧
      findSlot st1 20 = some s1 ∧
      s1.reserved_capacity = calculate_reserved_capacity c1_base.tickets 20 ∧
      ((slot_open 20 4 0).slot_status = SlotStatus.BLOCKED →
        s1.slot_status = SlotStatus.BLOCKED) ∧
      ((slot_open 20 4 0).slot_status ≠ SlotStatus.BLOCKED →
        (s1.slot_status = SlotStatus.CLOSED ↔
          (slot_open 20 4 0).max_capacity - calculate_reserved_capacity c1_base.tickets 20 ≤ 0) ∧
        (s1.slot_status = SlotStatus.OPEN ↔
          0 < (slot_open 20 4 0).max_capacity - calculate_reserved_capacity c1_base.tickets 20)) :=
  C10_slot_status_recompute c1_base 20 (slot_open 20 4 0) (by decide)

/-- C1 amended: every capacity recomputation stores, as the slot's
reserved amount, the sum of party sizes of the PENDING reservations on the
slot only — confirmed reservations are excluded from the count (the
pending-or-confirmed sum is not what the code maintains and, as the
counterexample shows, can exceed the maximum capacity). -/
theorem C1_amended_reserved_is_pending_sum (st : State) (slot_id : Nat) (s : Slot)
    (h : findSlot st slot_id = some s) :
    ∃ st1 s1, update_slot_capacity st slot_id = Except.ok st1 ∧
      st1.tickets = st.tickets ∧
      findSlot st1 slot_id = some s1 ∧
      s1.reserved_capacity = calculate_reserved_capacity st.tickets slot_id ∧
      s1.max_capacity = s.max_capacity := by
  have hid : s.id = slot_id := findSlot_key st slot_id s h
  have hsome : (findSlot st slot_id).isSome = true := by rw [h]; rfl
  set srec := s.recompute_reserved_capacity st.tickets with hsrec
  refine ⟨setSlot st srec.update_slot_status, srec.update_slot_status,
    update_slot_capacity_eq st slot_id s h, setSlot_tickets st srec.update_slot_status,
    findSlot_setSlot st srec.update_slot_status slot_id
      (by rw [update_slot_status_id]; exact hid) hsome, ?_, ?_⟩
  · rw [update_slot_status_reserved]
    show calculate_reserved_capacity st.tickets s.id = _
    rw [hid]
  · rw [update_slot_status_max]
    rfl

/-- Witness for the amended C1 at the concrete slot of the capacity
scenario. -/
theorem C1_amended_witness :
    ∃ st1 s1, update_slot_capacity c1_stf 20 = Except.ok st1 ∧
      st1.tickets = c1_stf.tickets ∧
      findSlot st1 20 = some s1 ∧
      s1.reserved_capacity = calculate_reserved_capacity c1_stf.tickets 20 ∧
      s1.max_capacity = (slot_open 20 4 4).max_capacity := by
  have h : findSlot c1_stf 20 =
      some { slot_open 20 4 4 with slot_status := SlotStatus.CLOSED } := by decide
  exact C1_amended_reserved_is_pending_sum c1_stf 20
    { slot_open 20 4 4 with slot_status := SlotStatus.CLOSED } h

/-- Success shape of saving an existing ticket with a changed status when
every validation passes. -/
theorem ticket_save_ok_of_valid (st : State) (t t0 : Ticket) (s : Slot)
    (hfind : findTicket st t.id = some t0)
    (hvt : validate_status_transition t0.status t.status = Except.ok ())
    (hslot : findSlot st t.slot = some s)
    (hcap : ¬ t.party_size > s.get_available_capacity)
    (hne : t.status ≠ t0.status) :
    ticket_save st t =
      Except.ok (setTicket
        (setSlot st ((s.recompute_reserved_capacity st.tickets).update_slot_status)) t) := by
  unfold ticket_save validate_capacity
  rw [hfind]
  dsimp only
  rw [hvt]
  dsimp only
  rw [hslot]
  dsimp only
  rw [if_neg hcap]
  dsimp only
  rw [if_pos hne]
  rw [update_slot_capacity_eq st t.slot s hslot]

/-- Error shapes of saving an existing ticket: unknown slot, or a party
size above the stored availability. -/
theorem ticket_save_slot_missing (st : State) (t t0 : Ticket)
    (hfind : findTicket st t.id = some t0)
    (hvt : validate_status_transition t0.status t.status = Except.ok ())
    (hslot : findSlot st t.slot = none) :
    ticket_save st t = Except.error ("Slot not found") := by
  unfold ticket_save validate_capacity
  rw [hfind]
  dsimp only
  rw [hvt]
  dsimp only
  rw [hslot]

theorem ticket_save_capacity_error (st : State) (t t0 : Ticket) (s : Slot)
    (hfind : findTicket st t.id = some t0)
    (hvt : validate_status_transition t0.status t.status = Except.ok ())
    (hslot : findSlot st t.slot = some s)
    (hcap : t.party_size > s.get_available_capacity) :
    ticket_save st t = Except.error ("Party size exceeds available capacity") := by
  unfold ticket_save validate_capacity
  rw [hfind]
  dsimp only
  rw [hvt]
  dsimp only
  rw [hslot]
  dsimp only
  rw [if_pos hcap]

/-- C6: the confirm operation (ticket_controller.confirm_ticket) succeeds
only on a PENDING reservation whose expiration, when set, has not passed;
on success the reservation is CONFIRMED and the owning slot's reserved
capacity is recomputed from the resulting store; a non-PENDING or expired
reservation makes it fail, leaving the store unchanged (nothing is
committed on the error path). -/
theorem C6_confirm_contract (st : State) (ticket_id now : Nat) (t : Ticket)
    (h : findTicket st ticket_id = some t) :
    (∀ st1, confirm_ticket st ticket_id now = Except.ok st1 →
        t.status = TicketStatus.PENDING ∧
        (∀ e, t.expires_at = some e → ¬ e < now) ∧
        (∃ t1, findTicket st1 ticket_id = some t1 ∧ t1.status = TicketStatus.CONFIRMED) ∧
        (∃ s1, findSlot st1 t.slot = some s1 ∧
          s1.reserved_capacity = calculate_reserved_capacity st1.tickets t.slot)) ∧
    ((t.status ≠ TicketStatus.PENDING ∨ (∃ e, t.expires_at = some e ∧ e < now)) →
        ∃ msg, confirm_ticket st ticket_id now = Except.error msg) := by
  have hid : t.id = ticket_id := findTicket_key st ticket_id t h
  have hfind2 : findTicket st t.id = some t := by rw [hid]; exact h
  constructor
  · intro st1 hok
    unfold confirm_ticket at hok
    rw [h] at hok
    dsimp only at hok
    by_cases hs : t.status = TicketStatus.PENDING
    · rw [if_neg (by simp [hs])] at hok
      by_cases hg : (match t.expires_at with
                     | some e => decide (e < now)
                     | none => false) = true
      · rw [if_pos hg] at hok
        exact absurd hok (by simp)
      · rw [if_neg hg] at hok
        refine ⟨hs, ?_, ?_⟩
        · intro e he hlt
          exact hg (by rw [he]; simpa using hlt)
        · have hvt : validate_status_transition t.status TicketStatus.CONFIRMED =
              Except.ok () := by rw [hs]; rfl
          cases hslot : findSlot st t.slot with
          | none =>
            rw [ticket_save_slot_missing st { t with status := TicketStatus.CONFIRMED } t
              hfind2 hvt hslot] at hok
            exact absurd hok (by simp)
          | some s =>
            by_cases hcap : t.party_size > s.get_available_capacity
            · rw [ticket_save_capacity_error st { t with status := TicketStatus.CONFIRMED } t s
                hfind2 hvt hslot hcap] at hok
              exact absurd hok (by simp)
            · rw [ticket_save_ok_of_valid st { t with status := TicketStatus.CONFIRMED } t s
                hfind2 hvt hslot hcap (by simp [hs])] at hok
              dsimp only at hok
              set srec := (s.recompute_reserved_capacity st.tickets).update_slot_status
                with hsrec
              set stX :=
                setTicket (setSlot st srec) { t with status := TicketStatus.CONFIRMED }
                with hstX
              have hsid : srec.id = t.slot := by
                rw [hsrec, update_slot_status_id]
                exact findSlot_key st t.slot s hslot
              have hslotX : findSlot stX t.slot = some srec := by
                rw [hstX]
                show findSlot (setSlot st srec) t.slot = some srec
                exact findSlot_setSlot st srec t.slot hsid (by rw [hslot]; rfl)
              rw [update_slot_capacity_eq stX t.slot srec hslotX] at hok
              dsimp only at hok
              have hst1 : st1 = setSlot stX
                  ((srec.recompute_reserved_capacity stX.tickets).update_slot_status) := by
                cases hok
                rfl
              constructor
              · refine ⟨{ t with status := TicketStatus.CONFIRMED }, ?_, rfl⟩
                rw [hst1]
                show findTicket stX ticket_id = some _
                rw [hstX]
                exact findTicket_setTicket (setSlot st srec)
                  { t with status := TicketStatus.CONFIRMED } ticket_id hid
                  (by show (findTicket st ticket_id).isSome = true; rw [h]; rfl)
              · refine ⟨(srec.recompute_reserved_capacity stX.tickets).update_slot_status,
                  ?_, ?_⟩
                · rw [hst1]
                  exact findSlot_setSlot stX
                    ((srec.recompute_reserved_capacity stX.tickets).update_slot_status) t.slot
                    (by rw [update_slot_status_id]; exact hsid)
                    (by rw [hslotX]; rfl)
                · rw [update_slot_status_reserved]
                  have hti : st1.tickets = stX.tickets := by rw [hst1]; rfl
                  rw [hti]
                  show calculate_reserved_capacity stX.tickets srec.id = _
                  rw [hsid]
    · rw [if_pos hs] at hok
      exact absurd hok (by simp)
  · intro hbad
    unfold confirm_ticket
    rw [h]
    dsimp only
    rcases hbad with hbad | ⟨e, he, hlt⟩
    · rw [if_pos hbad]
      exact ⟨"Only PENDING tickets can be confirmed", rfl⟩
    · by_cases hs : t.status ≠ TicketStatus.PENDING
      · rw [if_pos hs]
        exact ⟨"Only PENDING tickets can be confirmed", rfl⟩
      · rw [if_neg hs]
        rw [if_pos (show (match t.expires_at with
            | some e => decide (e < now)
            | none => false) = true by rw [he]; simpa using hlt)]
        exact ⟨"Cannot confirm expired ticket", rfl⟩

/-- Witness for C6: confirming the concrete PENDING reservation of the
cancel scenario. -/
theorem C6_confirm_contract_witness :
    (∀ st1, confirm_ticket c5_base 100 0 = Except.ok st1 →
        (ticket_mk 100 20 2 TicketStatus.PENDING (some 24)).status = TicketStatus.PENDING ∧
        (∀ e, (ticket_mk 100 20 2 TicketStatus.PENDING (some 24)).expires_at = some e →
          ¬ e < 0) ∧
        (∃ t1, findTicket st1 100 = some t1 ∧ t1.status = TicketStatus.CONFIRMED) ∧
        (∃ s1, findSlot st1 (ticket_mk 100 20 2 TicketStatus.PENDING (some 24)).slot =
            some s1 ∧
          s1.reserved_capacity = calculate_reserved_capacity st1.tickets
            (ticket_mk 100 20 2 TicketStatus.PENDING (some 24)).slot)) ∧
    (((ticket_mk 100 20 2 TicketStatus.PENDING (some 24)).status ≠ TicketStatus.PENDING ∨
        (∃ e, (ticket_mk 100 20 2 TicketStatus.PENDING (some 24)).expires_at = some e ∧
          e < 0)) →
      ∃ msg, confirm_ticket c5_base 100 0 = Except.error msg) :=
  C6_confirm_contract c5_base 100 0 (ticket_mk 100 20 2 TicketStatus.PENDING (some 24))
    (by decide)

/-- Saving a deposit whose status is not PENDING changes nothing (both
status flips of the validate hook require PENDING). -/
theorem deposit_validate_non_pending (d : Deposit) (now : Nat)
    (hp : ¬ (d.amount_paid ≠ 0 ∧ d.amount_paid < 0)) (hr : ¬ d.amount_required ≤ 0)
    (hst : d.status ≠ DepositStatus.PENDING) :
    deposit_validate d now = Except.ok d := by
  unfold deposit_validate
  rw [if_neg hp, if_neg hr]
  dsimp only
  have h1 : ¬ (d.amount_paid ≠ 0 ∧ d.amount_paid ≥ d.amount_required ∧
      d.status = DepositStatus.PENDING) := fun hcon => hst hcon.2.2
  simp only [if_neg h1]
  have h2 : ¬ (d.status = DepositStatus.PENDING ∧ (match d.due_at with
      | some due => decide (due < now)
      | none => false) = true) := fun hcon => hst hcon.1
  simp only [if_neg h2]

/-- Saving a deposit whose paid total is below the requirement never flips
it to PAID; at most the lazy overdue flip applies. -/
theorem deposit_validate_no_flip (d : Deposit) (now : Nat)
    (hp : ¬ (d.amount_paid ≠ 0 ∧ d.amount_paid < 0)) (hr : ¬ d.amount_required ≤ 0)
    (hlt : ¬ d.amount_paid ≥ d.amount_required) :
    deposit_validate d now = Except.ok d ∨
      deposit_validate d now = Except.ok { d with status := DepositStatus.OVERDUE } := by
  unfold deposit_validate
  rw [if_neg hp, if_neg hr]
  dsimp only
  have h1 : ¬ (d.amount_paid ≠ 0 ∧ d.amount_paid ≥ d.amount_required ∧
      d.status = DepositStatus.PENDING) := fun hcon => hlt hcon.2.1
  simp only [if_neg h1]
  by_cases hov : d.status = DepositStatus.PENDING ∧ (match d.due_at with
      | some due => decide (due < now)
      | none => false) = true
  · right
    simp only [if_pos hov]
  · left
    simp only [if_neg hov]

/-- C7: recording a payment (CheeseDeposit.record_payment followed by its
save) is rejected exactly when the deposit is already PAID or REFUNDED;
otherwise, for a non-negative payment on a well-formed deposit, it
succeeds, the paid total accumulates by the given amount, and the moment
the total reaches the required amount the status flips to PAID with the
paid timestamp stamped. -/
theorem C7_record_payment_contract (d : Deposit) (amount : Int) (method : String)
    (now : Nat) (h_amount : 0 ≤ amount) (h_paid : 0 ≤ d.amount_paid)
    (h_req : 0 < d.amount_required) :
    ((d.status = DepositStatus.PAID ∨ d.status = DepositStatus.REFUNDED) →
        record_payment d amount method now =
          Except.error ("Cannot record payment for this deposit")) ∧
    (¬ (d.status = DepositStatus.PAID ∨ d.status = DepositStatus.REFUNDED) →
        ∃ d1, record_payment d amount method now = Except.ok d1 ∧
          d1.amount_paid = d.amount_paid + amount ∧
          (d.amount_required ≤ d.amount_paid + amount →
            d1.status = DepositStatus.PAID ∧ d1.paid_at = some now)) := by
  constructor
  · intro hpr
    unfold record_payment
    rw [if_pos hpr]
  · intro hpr
    unfold record_payment
    rw [if_neg hpr]
    dsimp only
    by_cases hge : d.amount_paid + amount ≥ d.amount_required
    · rw [if_pos hge]
      refine ⟨_, deposit_validate_non_pending _ now (by dsimp only; omega)
        (by dsimp only; omega) (by dsimp only; simp), rfl, fun _ => ⟨rfl, rfl⟩⟩
    · rw [if_neg hge]
      rcases deposit_validate_no_flip
          { d with amount_paid := d.amount_paid + amount, verification_method := method }
          now (by dsimp only; omega) (by dsimp only; omega) (by dsimp only; omega) with
        hv | hv
      · exact ⟨_, hv, rfl, fun hcon => absurd hcon (by omega)⟩
      · exact ⟨_, hv, rfl, fun hcon => absurd hcon (by omega)⟩

/-- Witness for C7 at the concrete scenario deposit (required 100, paid 0):
the theorem applied to the 60 payment, plus the evaluated full scenario —
60 leaves the deposit PENDING, the further 40 flips it to PAID with the
paid timestamp stamped, and a further payment on the PAID deposit fails. -/
theorem C7_record_payment_contract_witness :
    (((c7_deposit.status = DepositStatus.PAID ∨ c7_deposit.status = DepositStatus.REFUNDED) →
        record_payment c7_deposit 60 ("Manual") 5 =
          Except.error ("Cannot record payment for this deposit")) ∧
      (¬ (c7_deposit.status = DepositStatus.PAID ∨
            c7_deposit.status = DepositStatus.REFUNDED) →
        ∃ d1, record_payment c7_deposit 60 ("Manual") 5 = Except.ok d1 ∧
          d1.amount_paid = c7_deposit.amount_paid + 60 ∧
          (c7_deposit.amount_required ≤ c7_deposit.amount_paid + 60 →
            d1.status = DepositStatus.PAID ∧ d1.paid_at = some 5))) ∧
    record_payment c7_deposit 60 ("Manual") 5 = Except.ok c7_d1 ∧
    c7_d1.status = DepositStatus.PENDING ∧
    c7_d1.amount_paid = 60 ∧
    record_payment c7_d1 40 ("Manual") 6 = Except.ok c7_d2 ∧
    c7_d2.status = DepositStatus.PAID ∧
    c7_d2.amount_paid = 100 ∧
    c7_d2.paid_at = some 6 ∧
    record_payment c7_d2 10 ("Manual") 7 =
      Except.error ("Cannot record payment for this deposit") :=
  ⟨C7_record_payment_contract c7_deposit 60 ("Manual") 5 (by decide) (by decide) (by decide),
    by decide, by decide, by decide, by decide, by decide, by decide, by decide, by decide⟩

theorem filter_length_eq_iff_all {α : Type} (p : α → Bool) (l : List α) :
    ((l.filter p).length = l.length) ↔ l.all p = true := by
  induction l with
  | nil => simp
  | cons x xs ih =>
    by_cases hx : p x = true
    · simp [List.filter_cons, hx, ih]
    · have hx0 : p x = false := by revert hx; cases p x <;> simp
      have hle : (xs.filter p).length ≤ xs.length := xs.length_filter_le p
      simp [List.filter_cons, hx0]
      omega

theorem filter_pos_iff_any {α : Type} (p : α → Bool) (l : List α) :
    (0 < (l.filter p).length) ↔ l.any p = true := by
  induction l with
  | nil => simp
  | cons x xs ih =>
    by_cases hx : p x = true
    · simp [List.filter_cons, hx]
    · have hx0 : p x = false := by revert hx; cases p x <;> simp
      simp [List.filter_cons, hx0, ih]

theorem filter_cancel_expired_length (l : List TicketStatus) :
    (l.filter (fun s => decide (s = TicketStatus.CANCELLED))).length +
      (l.filter (fun s => decide (s = TicketStatus.EXPIRED))).length =
    (l.filter (fun s => decide (s = TicketStatus.CANCELLED) ||
        decide (s = TicketStatus.EXPIRED))).length := by
  induction l with
  | nil => rfl
  | cons x xs ih => cases x <;> simp [List.filter_cons] <;> omega

/-- C4 amended: the status derivation inside
CheeseRouteBooking.calculate_status is exactly the pure function of the
child statuses the spec describes — all children cancelled or expired
gives CANCELLED, all confirmed gives CONFIRMED, at least one confirmed
gives PARTIALLY_CONFIRMED, otherwise PENDING; but it is applied only when
the route booking itself is saved or queried, so the stored status can be
stale after a child-only mutation. -/
theorem C4_amended_derivation (statuses : List TicketStatus) :
    derive_route_status statuses = spec_route_status statuses := by
  unfold derive_route_status spec_route_status
  dsimp only
  rw [filter_cancel_expired_length]
  simp only [filter_length_eq_iff_all, filter_pos_iff_any]
